import Mathlib

/-!
Verification of the Penumbra Groth16 Spend/Output proof circuits
(`crypto/src/proofs/groth16/spend.rs`, `crypto/src/proofs/groth16/output.rs`)
and the complete tier of the tiered commitment tree
(`src/internal/complete/tier.rs`).

The circuits are embedded shallowly: `generate_constraints` becomes a Lean
function that records, in source order, the public-input allocations and the
gadget invocations (each with the boolean selector value handed to it and the
truth value of the underlying relation on the allocated values).  The external
collaborators — the decaf377 group, the arkworks Groth16 back end, the key
derivation and note/tree crates, and the gadget library — are abstract
capability structures passed as parameters.
-/

namespace Penumbra

/-- Modulus of the BLS12-377 scalar field, which is the base field `Fq` of
decaf377 over which all circuit variables live. -/
def qBLS : Nat := 8444461749428370424248824938781546531375899335154063827935233455917409239041

/-- The circuit field `Fq` of decaf377. -/
abbrev Fq := ZMod qBLS

/-- Byte strings (Rust `[u8; N]` / `&[u8]`). -/
abbrev Bytes := List Nat

/-- Little-endian byte decomposition of a natural number into `k` bytes
(`u64::to_le_bytes`, `Fr::to_bytes`-style encodings). -/
def leBytes : Nat → Nat → Bytes
  | 0, _ => []
  | k + 1, n => n % 256 :: leBytes k (n / 256)

/-- Value of a little-endian byte string reduced into `Fq`
(`Fq::from_le_bytes_mod_order`). -/
def fqFromLeBytesModOrder (bs : Bytes) : Fq :=
  ((bs.foldr (fun b acc => acc * 256 + b) 0 : Nat) : Fq)

/-- A decaf377 group element, identified with its canonical `Fq` encoding
(the value produced by `compress_to_field`). -/
structure Element where
  repr : Fq
  deriving DecidableEq

/-- A decaf377 scalar-field element `Fr`, carried by its canonical 32-byte
little-endian encoding (the circuits only ever consume `Fr` via `to_bytes`). -/
structure Fr where
  bytes : Bytes
  deriving DecidableEq

/-- `Fr::from(n)` for small naturals, via the canonical 32-byte encoding. -/
def Fr.ofNat (n : Nat) : Fr := ⟨leBytes 32 n⟩

/-- The nullifier-deriving key `nk` (`NullifierKey(Fq)`). -/
structure NullifierKey where
  fq : Fq
  deriving DecidableEq

/-- A nullifier (`Nullifier(Fq)`). -/
structure Nullifier where
  fq : Fq
  deriving DecidableEq

/-- A commitment-tree root (`tct::Root`); `Fq::from` of a root is its field
representation `anchor.0`. -/
structure Root where
  fq : Fq
  deriving DecidableEq

/-- A balance commitment (`balance::Commitment`), wrapping a group element. -/
structure BalanceCommitment where
  elem : Element
  deriving DecidableEq

/-- A note commitment (`note::Commitment(Fq)`). -/
structure NoteCommitment where
  fq : Fq
  deriving DecidableEq

/-- The 32-byte encoding of a decaf377-rdsa `VerificationKey<SpendAuth>`
(`ak` and `rk` cross the circuit boundary as these bytes). -/
structure VerificationKeyBytes where
  bytes : Bytes
  deriving DecidableEq

/-- A typed value: a `u64` amount together with an asset id (`asset::Id(Fq)`). -/
structure Value where
  amount : Nat
  assetId : Fq
  deriving DecidableEq

/-- The note fields consumed by the circuits, one field per accessor used in
`generate_constraints` (`note_blinding()`, `value()`, `diversified_generator()`,
`transmission_key_s()`, `transmission_key()`, `clue_key()`). -/
structure Note where
  noteBlinding : Fq
  value : Value
  diversifiedGenerator : Element
  transmissionKeyS : Fq
  transmissionKeyBytes : Bytes
  clueKeyBytes : Bytes
  deriving DecidableEq

/-- A `tct::Proof` Merkle inclusion witness: the committed leaf
(`commitment().0`), its position (`u64::from(position())`), and the
authentication-path data consumed by `MerkleAuthPathVar`. -/
structure TctProof where
  commitment : Fq
  position : Nat
  path : List Fq
  deriving DecidableEq

/-- External decaf377 capabilities consumed by the proof code:
`Encoding::vartime_decompress`, the checked `Fq::from_bytes`, the
`ToConstraintField` decomposition of a group element (which is also the
instance assignment an `ElementVar::new_input` allocation contributes), and
the group basepoint. -/
structure Decaf where
  decompress : Bytes → Option Element
  fqFromBytes : Bytes → Option Fq
  elemFieldElements : Element → List Fq
  basepoint : Element

/-- Modelled from the spec: the gadget library (`groth16::gadgets` and
`tct::r1cs::MerkleAuthPathVar::verify`) is repository code outside the given
sources; the spec describes it as eight named relations over allocated
variables, each taking a boolean selector such that a false selector makes the
constraint automatically satisfied.  Each field is the underlying relation on
the allocated values; the selector gating is applied at the call site. -/
structure GadgetRels where
  noteCommitmentIntegrity : Fq → Fq → Fq → Element → Fq → Fq → Fq → Bool
  merklePath : List Fq → Fq → Fq → Fq → Bool
  rkIntegrity : Element → Bytes → Fq → Bool
  diversifiedAddressIntegrity : Fq → Fq → Element → Element → Bool
  diversifiedBasepointNotIdentity : Element → Bool
  akNotIdentity : Element → Bool
  valueCommitmentIntegrity : Bytes → Fq → Bytes → Element → Bool
  nullifierIntegrity : Fq → Fq → Fq → Fq → Bool

/-- The names of the gadget relations invoked by the two circuits. -/
inductive GadgetName where
  | noteCommitmentIntegrity
  | merklePathVerify
  | rkIntegrity
  | diversifiedAddressIntegrity
  | diversifiedBasepointNotIdentity
  | akNotIdentity
  | valueCommitmentIntegrity
  | nullifierIntegrity
  deriving DecidableEq

/-- One gadget invocation: which relation, the boolean selector value handed
to it, and the truth value of the underlying relation on the allocated
witness/input values. -/
structure GadgetCall where
  name : GadgetName
  selector : Bool
  relation : Bool
  deriving DecidableEq

/-- A selector-gated constraint is satisfied when the selector is false or the
underlying relation holds (the gating contract of the gadget library). -/
def GadgetCall.holds (g : GadgetCall) : Bool := !g.selector || g.relation

/-- Labels of the Spend circuit public inputs. -/
inductive SpendPubLabel where
  | anchor
  | balanceCommitment
  | nullifier
  | rk
  deriving DecidableEq

/-- Labels of the Output circuit public inputs. -/
inductive OutputPubLabel where
  | noteCommitment
  | balanceCommitment
  deriving DecidableEq

/-- The Rust `SynthesisError` cases reachable in this code. -/
inductive SynthesisError where
  | AssignmentMissing
  deriving DecidableEq

/-- Result of running `generate_constraints`: a Rust panic (`expect`/`unwrap`),
an `Err(SynthesisError)`, or success. -/
inductive SynthResult (α : Type) where
  | panic (msg : String)
  | err (e : SynthesisError)
  | ok (a : α)
  deriving DecidableEq

/-- Result of a Rust function that can panic but otherwise returns normally. -/
inductive PanicOr (α : Type) where
  | panic (msg : String)
  | ok (a : α)
  deriving DecidableEq

/-- The Spend circuit struct: witnesses (inclusion proof, note, blinding,
randomizer, `ak`, `nk`) and public data (anchor, balance commitment,
nullifier, `rk`). -/
structure SpendCircuit where
  note_commitment_proof : TctProof
  note : Note
  v_blinding : Fr
  spend_auth_randomizer : Fr
  ak : VerificationKeyBytes
  nk : NullifierKey
  anchor : Root
  balance_commitment : BalanceCommitment
  nullifier : Nullifier
  rk : Element
  deriving DecidableEq

/-- The Output circuit struct: witnesses (note, balance blinding) and public
data (balance commitment, note commitment). -/
structure OutputCircuit where
  note : Note
  v_blinding : Fr
  balance_commitment : BalanceCommitment
  note_commitment : NoteCommitment
  deriving DecidableEq

/-- What a successful run of `SpendCircuit::generate_constraints` leaves in
the constraint system, abstracted to what the claims are about: the public
inputs in allocation order (label plus contributed instance assignment) and
the gadget invocations in emission order. -/
structure SpendSynthResult where
  publicInputs : List (SpendPubLabel × List Fq)
  gadgetCalls : List GadgetCall
  deriving DecidableEq

/-- Same for `OutputCircuit::generate_constraints`. -/
structure OutputSynthResult where
  publicInputs : List (OutputPubLabel × List Fq)
  gadgetCalls : List GadgetCall
  deriving DecidableEq

/-- The constraint system is satisfied when every selector-gated gadget
constraint holds. -/
def SpendSynthResult.satisfied (r : SpendSynthResult) : Bool :=
  r.gadgetCalls.all GadgetCall.holds

/-- The constraint system is satisfied when every gadget constraint holds. -/
def OutputSynthResult.satisfied (r : OutputSynthResult) : Bool :=
  r.gadgetCalls.all GadgetCall.holds

/-- `SpendCircuit::generate_constraints`, mirroring the source line by line:
witness allocations (the transmission key is decompressed fallibly with
`map_err(SynthesisError::AssignmentMissing)`; the `ak` bytes are decoded with
`expect` and decompressed with `unwrap`, both panicking paths), then the four
public-input allocations in order, then `is_dummy := (amount == 0)`,
`is_not_dummy := is_dummy.not()`, and the eight gadget invocations in source
order, each with `is_not_dummy` as its selector. -/
def SpendCircuit.generate_constraints (G : GadgetRels) (dec : Decaf)
    (c : SpendCircuit) : SynthResult SpendSynthResult :=
  let note_commitment := c.note_commitment_proof.commitment
  let position : Fq := ((c.note_commitment_proof.position % 2 ^ 64 : Nat) : Fq)
  let merkle_path := c.note_commitment_proof.path
  let note_blinding := c.note.noteBlinding
  let value_amount : Fq := ((c.note.value.amount % 2 ^ 64 : Nat) : Fq)
  let value_asset_id := c.note.value.assetId
  let diversified_generator := c.note.diversifiedGenerator
  let transmission_key_s := c.note.transmissionKeyS
  match dec.decompress c.note.transmissionKeyBytes with
  | none => .err .AssignmentMissing
  | some element_transmission_key =>
    let clue_key := fqFromLeBytesModOrder c.note.clueKeyBytes
    let v_blinding_vars := c.v_blinding.bytes
    let value_vars := leBytes 8 c.note.value.amount
    let spend_auth_randomizer_var := c.spend_auth_randomizer.bytes
    match dec.fqFromBytes c.ak.bytes with
    | none => .panic "verification key is valid, so its byte encoding is a decaf377 s value"
    | some ak_bytes =>
      match dec.decompress c.ak.bytes with
      | none => .panic "called Option::unwrap on a None value"
      | some ak_point =>
        let nk := c.nk.fq
        let publicInputs : List (SpendPubLabel × List Fq) :=
          [(.anchor, [c.anchor.fq]),
           (.balanceCommitment, dec.elemFieldElements c.balance_commitment.elem),
           (.nullifier, [c.nullifier.fq]),
           (.rk, dec.elemFieldElements c.rk)]
        let rk_fq := c.rk.repr
        let is_dummy : Bool := decide (value_amount = 0)
        let is_not_dummy : Bool := !is_dummy
        let gadgetCalls : List GadgetCall :=
          [⟨.noteCommitmentIntegrity, is_not_dummy,
            G.noteCommitmentIntegrity note_blinding value_amount value_asset_id
              diversified_generator transmission_key_s clue_key note_commitment⟩,
           ⟨.merklePathVerify, is_not_dummy,
            G.merklePath merkle_path position c.anchor.fq note_commitment⟩,
           ⟨.rkIntegrity, is_not_dummy,
            G.rkIntegrity ak_point spend_auth_randomizer_var rk_fq⟩,
           ⟨.diversifiedAddressIntegrity, is_not_dummy,
            G.diversifiedAddressIntegrity ak_bytes nk element_transmission_key
              diversified_generator⟩,
           ⟨.diversifiedBasepointNotIdentity, is_not_dummy,
            G.diversifiedBasepointNotIdentity diversified_generator⟩,
           ⟨.akNotIdentity, is_not_dummy,
            G.akNotIdentity ak_point⟩,
           ⟨.valueCommitmentIntegrity, is_not_dummy,
            G.valueCommitmentIntegrity value_vars value_asset_id v_blinding_vars
              c.balance_commitment.elem⟩,
           ⟨.nullifierIntegrity, is_not_dummy,
            G.nullifierIntegrity note_commitment nk position c.nullifier.fq⟩]
        .ok { publicInputs := publicInputs, gadgetCalls := gadgetCalls }

/-- `OutputCircuit::generate_constraints`: witness allocations (all
infallible), then the two public-input allocations (note commitment first,
then balance commitment), then the three gadget invocations in source order,
each with the constant `Boolean::TRUE` selector. -/
def OutputCircuit.generate_constraints (G : GadgetRels) (dec : Decaf)
    (c : OutputCircuit) : SynthResult OutputSynthResult :=
  let note_blinding := c.note.noteBlinding
  let value_amount : Fq := ((c.note.value.amount % 2 ^ 64 : Nat) : Fq)
  let value_asset_id := c.note.value.assetId
  let diversified_generator := c.note.diversifiedGenerator
  let transmission_key_s := c.note.transmissionKeyS
  let clue_key := fqFromLeBytesModOrder c.note.clueKeyBytes
  let v_blinding_vars := c.v_blinding.bytes
  let value_vars := leBytes 8 c.note.value.amount
  let publicInputs : List (OutputPubLabel × List Fq) :=
    [(.noteCommitment, [c.note_commitment.fq]),
     (.balanceCommitment, dec.elemFieldElements c.balance_commitment.elem)]
  let gadgetCalls : List GadgetCall :=
    [⟨.diversifiedBasepointNotIdentity, true,
      G.diversifiedBasepointNotIdentity diversified_generator⟩,
     ⟨.valueCommitmentIntegrity, true,
      G.valueCommitmentIntegrity value_vars value_asset_id v_blinding_vars
        c.balance_commitment.elem⟩,
     ⟨.noteCommitmentIntegrity, true,
      G.noteCommitmentIntegrity note_blinding value_amount value_asset_id
        diversified_generator transmission_key_s clue_key c.note_commitment.fq⟩]
  .ok { publicInputs := publicInputs, gadgetCalls := gadgetCalls }

/-- The arkworks Groth16 verification capability, abstract over the verifying
key, processed verifying key and proof types: `Groth16::process_vk` and
`Groth16::verify_with_processed_vk`, both fallible (errors become `anyhow`
errors at the call sites, modelled as strings). -/
structure G16 (VK PVK Pf : Type) where
  process_vk : VK → Except String PVK
  verify_with_processed_vk : PVK → List Fq → Pf → Except String Bool

/-- The arkworks Groth16 proving capability for the Spend circuit:
`Groth16::prove` over a proving key, circuit and rng (modelled as a seed). -/
structure G16SpendProve (PK Pf : Type) where
  prove : PK → SpendCircuit → Nat → Except String Pf

/-- The public-input vector `SpendProof::verify` builds, in source order:
the anchor field elements, then the balance commitment, then the nullifier,
then the decompressed `rk` element. -/
def SpendProof.verify_public_inputs (dec : Decaf) (anchor : Root)
    (balance_commitment : BalanceCommitment) (nullifier : Nullifier)
    (element_rk : Element) : List Fq :=
  [anchor.fq] ++ dec.elemFieldElements balance_commitment.elem
    ++ [nullifier.fq] ++ dec.elemFieldElements element_rk

/-- `SpendProof::verify`: processes the verifying key (errors propagate),
decompresses the `rk` bytes with `expect` (panics on failure), builds the
public-input vector, runs the SNARK verification (errors propagate), and turns
a `false` verification outcome into the error "proof did not verify". -/
def SpendProof.verify {VK PVK Pf : Type} (g : G16 VK PVK Pf) (dec : Decaf)
    (proof : Pf) (vk : VK) (anchor : Root)
    (balance_commitment : BalanceCommitment) (nullifier : Nullifier)
    (rk : VerificationKeyBytes) : PanicOr (Except String Unit) :=
  match g.process_vk vk with
  | .error e => .ok (.error e)
  | .ok processed_pvk =>
    match dec.decompress rk.bytes with
    | none => .panic "expect only valid element points"
    | some element_rk =>
      let public_inputs :=
        SpendProof.verify_public_inputs dec anchor balance_commitment
          nullifier element_rk
      match g.verify_with_processed_vk processed_pvk public_inputs proof with
      | .error e => .ok (.error e)
      | .ok true => .ok (.ok ())
      | .ok false => .ok (.error "proof did not verify")

/-- `SpendProof::prove`: decompresses the `rk` verification-key bytes with
`expect` (panics on failure), assembles the circuit struct from its arguments,
and runs `Groth16::prove`, propagating its error. -/
def SpendProof.prove {PK Pf : Type} (gp : G16SpendProve PK Pf) (dec : Decaf)
    (rng : Nat) (pk : PK) (note_commitment_proof : TctProof) (note : Note)
    (v_blinding : Fr) (spend_auth_randomizer : Fr) (ak : VerificationKeyBytes)
    (nk : NullifierKey) (anchor : Root)
    (balance_commitment : BalanceCommitment) (nullifier : Nullifier)
    (rk : VerificationKeyBytes) : PanicOr (Except String Pf) :=
  match dec.decompress rk.bytes with
  | none => .panic "expect only valid element points"
  | some element_rk =>
    let circuit : SpendCircuit :=
      { note_commitment_proof, note, v_blinding, spend_auth_randomizer, ak, nk,
        anchor, balance_commitment, nullifier, rk := element_rk }
    .ok (gp.prove pk circuit rng)

/-- The public-input vector `OutputProof::verify` builds, in source order:
the note commitment field elements first, then the balance commitment. -/
def OutputProof.verify_public_inputs (dec : Decaf)
    (note_commitment : NoteCommitment)
    (balance_commitment : BalanceCommitment) : List Fq :=
  [note_commitment.fq] ++ dec.elemFieldElements balance_commitment.elem

/-- `OutputProof::verify`: processes the verifying key (errors propagate),
builds the public-input vector, runs the SNARK verification (errors
propagate), and turns a `false` outcome into "proof did not verify". -/
def OutputProof.verify {VK PVK Pf : Type} (g : G16 VK PVK Pf) (dec : Decaf)
    (proof : Pf) (vk : VK) (balance_commitment : BalanceCommitment)
    (note_commitment : NoteCommitment) : Except String Unit :=
  match g.process_vk vk with
  | .error e => .error e
  | .ok processed_pvk =>
    let public_inputs :=
      OutputProof.verify_public_inputs dec note_commitment balance_commitment
    match g.verify_with_processed_vk processed_pvk public_inputs proof with
    | .error e => .error e
    | .ok true => .ok ()
    | .ok false => .error "proof did not verify"

/-- External capabilities consumed by `generate_test_parameters`, abstract
over the opaque spend-key, address and SNARK-key-pair types: seed-phrase key
derivation, payment-address derivation (via the full/incoming viewing keys),
spend-auth re-randomization (`spend_auth_key().randomize(r)` followed by
conversion to a `VerificationKey`), nullifier-key and `ak` extraction, address
assembly from components, denominated-value parsing, note construction, note
commitment, insertion/root/witness on a fresh commitment tree, and
`Groth16::circuit_specific_setup` for each circuit (taking an rng seed, since
the source feeds it `OsRng`; `none` models its `Err` outcome). -/
structure TestExt (SpendKey Address Keys : Type) where
  spendKeyFromSeedPhrase : Bytes → Nat → SpendKey
  paymentAddress : SpendKey → Nat → Address
  randomizeAk : SpendKey → Fr → VerificationKeyBytes
  nullifierKeyOf : SpendKey → NullifierKey
  akOf : SpendKey → VerificationKeyBytes
  addressFromComponents : Bytes → Bytes → Bytes → Option Address
  valueFromStr : String → Option Value
  noteFromParts : Address → Value → Bytes → Option Note
  noteCommit : Note → NoteCommitment
  treeInsert : NoteCommitment → Option Unit
  treeRootAfterInsert : NoteCommitment → Root
  treeWitness : NoteCommitment → Option TctProof
  spendSetup : SpendCircuit → Nat → Option Keys
  outputSetup : OutputCircuit → Nat → Option Keys

/-- `SpendCircuit::generate_test_parameters`, mirroring the source: keys are
derived from the fixed seed `[b'f'; 32]`, the randomizer and balance blinding
are `Fr::from(1)`, the note is `1upenumbra` at the derived address with
`Rseed([1u8; 32])`, the nullifier is `Nullifier(Fq::from(1))`, the balance
commitment is the basepoint, the note commitment is inserted into a fresh
tree to obtain the anchor and inclusion proof, and finally
`Groth16::circuit_specific_setup` runs with `OsRng` (the `rng` argument);
every `expect`/`unwrap` is a panic. -/
def SpendCircuit.generate_test_parameters {SpendKey Address Keys : Type}
    (ext : TestExt SpendKey Address Keys) (dec : Decaf) (rng : Nat) :
    PanicOr Keys :=
  let seed_phrase : Bytes := List.replicate 32 102
  let sk_sender := ext.spendKeyFromSeedPhrase seed_phrase 0
  let address := ext.paymentAddress sk_sender 0
  let spend_auth_randomizer := Fr.ofNat 1
  let rk := ext.randomizeAk sk_sender spend_auth_randomizer
  let nk := ext.nullifierKeyOf sk_sender
  let ak := ext.akOf sk_sender
  match ext.valueFromStr "1upenumbra" with
  | none => .panic "valid value"
  | some value =>
    match ext.noteFromParts address value (List.replicate 32 1) with
    | none => .panic "can make a note"
    | some note =>
      let v_blinding := Fr.ofNat 1
      match dec.decompress rk.bytes with
      | none => .panic "expect only valid element points"
      | some element_rk =>
        let nullifier : Nullifier := ⟨(1 : Fq)⟩
        let note_commitment := ext.noteCommit note
        match ext.treeInsert note_commitment with
        | none => .panic "tree insert failed"
        | some _ =>
          let anchor := ext.treeRootAfterInsert note_commitment
          match ext.treeWitness note_commitment with
          | none => .panic "tree witness failed"
          | some note_commitment_proof =>
            let circuit : SpendCircuit :=
              { note_commitment_proof, note, v_blinding,
                spend_auth_randomizer, ak, nk, anchor,
                balance_commitment := ⟨dec.basepoint⟩, nullifier,
                rk := element_rk }
            match ext.spendSetup circuit rng with
            | none => .panic "can perform circuit specific setup"
            | some keys => .ok keys

/-- `OutputCircuit::generate_test_parameters`, mirroring the source: the
address is assembled from the fixed bytes `[1u8; 16]` (diversifier),
`[1u8; 32]` (transmission key) and `[1u8; 32]` (clue key), the note is
`1upenumbra` with `Rseed([1u8; 32])`, the balance blinding is `Fr::from(1)`,
the balance commitment is the basepoint, the note commitment is the note's
own commitment, and `Groth16::circuit_specific_setup` runs with `OsRng`. -/
def OutputCircuit.generate_test_parameters {SpendKey Address Keys : Type}
    (ext : TestExt SpendKey Address Keys) (dec : Decaf) (rng : Nat) :
    PanicOr Keys :=
  let diversifier_bytes : Bytes := List.replicate 16 1
  let pk_d_bytes : Bytes := List.replicate 32 1
  let clue_key_bytes : Bytes := List.replicate 32 1
  match ext.addressFromComponents diversifier_bytes pk_d_bytes clue_key_bytes with
  | none => .panic "generated 1 address"
  | some address =>
    match ext.valueFromStr "1upenumbra" with
    | none => .panic "valid value"
    | some value =>
      match ext.noteFromParts address value (List.replicate 32 1) with
      | none => .panic "can make a note"
      | some note =>
        let v_blinding := Fr.ofNat 1
        let circuit : OutputCircuit :=
          { note := note, note_commitment := ext.noteCommit note, v_blinding,
            balance_commitment := ⟨dec.basepoint⟩ }
        match ext.outputSetup circuit rng with
        | none => .panic "can perform circuit specific setup"
        | some keys => .ok keys

/-- Node hashes of the tiered commitment tree are field elements. -/
abbrev Hash := Fq

/-- The `GetHash` trait: a hash and a possibly-absent cached hash. -/
class GetHash (α : Type) where
  hash : α → Hash
  cached_hash : α → Option Hash

/-- The `Height` trait, modelled as the value of its type-level height. -/
class HeightC (α : Type) where
  heightOf : α → Nat

/-- An eight-deep complete tree with the given item at each leaf
(`type Nested<Item> = N<N<N<N<N<N<N<N<L<Item>>>>>>>>>`), abstract over the
external `complete::Node` and `complete::Leaf` type constructors. -/
abbrev Nested (N L : Type → Type) (Item : Type) : Type :=
  N (N (N (N (N (N (N (N (L Item))))))))

/-- A complete tier of the tiered commitment tree, wrapping its 8-deep
nested inner tree. -/
structure Tier (N L : Type → Type) (Item : Type) where
  inner : Nested N L Item

/-- The `Height` impl for `Tier`: its height is the height of `Nested<Item>`. -/
instance {N L : Type → Type} {Item : Type} [HeightC (Nested N L Item)] :
    HeightC (Tier N L Item) where
  heightOf t := HeightC.heightOf t.inner

/-- The `GetHash` impl for `Tier`: both `hash` and `cached_hash` delegate to
the inner nested tree. -/
instance {N L : Type → Type} {Item : Type} [GetHash (Nested N L Item)] :
    GetHash (Tier N L Item) where
  hash t := GetHash.hash t.inner
  cached_hash t := GetHash.cached_hash t.inner

/-! Concrete instantiations of the external capabilities, used to evaluate
the model on explicit inputs. -/

/-- A decaf377 instantiation where every byte string decompresses. -/
def decW : Decaf :=
  { decompress := fun _ => some ⟨0⟩,
    fqFromBytes := fun _ => some 0,
    elemFieldElements := fun e => [e.repr],
    basepoint := ⟨1⟩ }

/-- A decaf377 instantiation where no byte string decompresses or decodes. -/
def decAllNone : Decaf :=
  { decompress := fun _ => none,
    fqFromBytes := fun _ => none,
    elemFieldElements := fun e => [e.repr],
    basepoint := ⟨1⟩ }

/-- A decaf377 instantiation where only the empty byte string decompresses
and checked field decoding always fails. -/
def decTkOnly : Decaf :=
  { decompress := fun bs => if bs = [] then some ⟨0⟩ else none,
    fqFromBytes := fun _ => none,
    elemFieldElements := fun e => [e.repr],
    basepoint := ⟨1⟩ }

/-- A decaf377 instantiation where only the empty byte string decompresses
but checked field decoding always succeeds. -/
def decAkBad : Decaf :=
  { decompress := fun bs => if bs = [] then some ⟨0⟩ else none,
    fqFromBytes := fun _ => some 0,
    elemFieldElements := fun e => [e.repr],
    basepoint := ⟨1⟩ }

/-- A gadget-relation assignment under which no relation ever holds: an
inconsistent witness in every relation. -/
def GFalse : GadgetRels :=
  { noteCommitmentIntegrity := fun _ _ _ _ _ _ _ => false,
    merklePath := fun _ _ _ _ => false,
    rkIntegrity := fun _ _ _ => false,
    diversifiedAddressIntegrity := fun _ _ _ _ => false,
    diversifiedBasepointNotIdentity := fun _ => false,
    akNotIdentity := fun _ => false,
    valueCommitmentIntegrity := fun _ _ _ _ => false,
    nullifierIntegrity := fun _ _ _ _ => false }

/-- A concrete note carrying the given amount. -/
def noteW (amount : Nat) : Note :=
  { noteBlinding := 0, value := ⟨amount, 0⟩, diversifiedGenerator := ⟨0⟩,
    transmissionKeyS := 0, transmissionKeyBytes := [], clueKeyBytes := [] }

/-- A concrete Spend circuit with the given note amount and `ak` bytes. -/
def spendWak (amount : Nat) (akBytes : Bytes) : SpendCircuit :=
  { note_commitment_proof := ⟨0, 0, []⟩, note := noteW amount,
    v_blinding := Fr.ofNat 1, spend_auth_randomizer := Fr.ofNat 1,
    ak := ⟨akBytes⟩, nk := ⟨0⟩, anchor := ⟨0⟩, balance_commitment := ⟨⟨0⟩⟩,
    nullifier := ⟨0⟩, rk := ⟨0⟩ }

/-- A concrete Spend circuit with the given note amount. -/
def spendW (amount : Nat) : SpendCircuit := spendWak amount []

/-- A concrete Output circuit. -/
def outputW : OutputCircuit :=
  { note := noteW 1, v_blinding := Fr.ofNat 1,
    balance_commitment := ⟨⟨0⟩⟩, note_commitment := ⟨0⟩ }

/-- Projection of a synthesis outcome to the satisfaction bit of the
resulting Spend constraint system, when synthesis succeeded. -/
def spendSynthSatisfied : SynthResult SpendSynthResult → Option Bool
  | .ok r => some r.satisfied
  | _ => none

/-- A test-parameter capability instantiation over trivial key/address types
whose SNARK setup leaks its rng seed into the returned key pair (as the real
Groth16 setup does through its sampled toxic waste). -/
def extW : TestExt Unit Unit Nat :=
  { spendKeyFromSeedPhrase := fun _ _ => (),
    paymentAddress := fun _ _ => (),
    randomizeAk := fun _ _ => ⟨[]⟩,
    nullifierKeyOf := fun _ => ⟨0⟩,
    akOf := fun _ => ⟨[]⟩,
    addressFromComponents := fun _ _ _ => some (),
    valueFromStr := fun _ => some ⟨1, 0⟩,
    noteFromParts := fun _ v _ => some (noteW v.amount),
    noteCommit := fun _ => ⟨0⟩,
    treeInsert := fun _ => some (),
    treeRootAfterInsert := fun _ => ⟨0⟩,
    treeWitness := fun _ => some ⟨0, 0, []⟩,
    spendSetup := fun _ r => some r,
    outputSetup := fun _ r => some r }

/-- The same capability instantiation with an rng-independent SNARK setup. -/
def extDet : TestExt Unit Unit Nat :=
  { extW with spendSetup := fun _ _ => some 7, outputSetup := fun _ _ => some 7 }

/-- A Groth16 verification instantiation over trivial key and proof types
whose pairing check always succeeds. -/
def g16W : G16 Unit Unit Unit :=
  { process_vk := fun _ => .ok (),
    verify_with_processed_vk := fun _ _ _ => .ok true }

/-- A Groth16 proving instantiation over trivial key and proof types. -/
def gpW : G16SpendProve Unit Unit := { prove := fun _ _ _ => .ok () }

/-- A toy item instance for evaluating the tier model: hashed by its value,
with no cached hash. -/
instance : GetHash Nat := ⟨fun n => (n : Fq), fun _ => none⟩

/-- A toy height instance for evaluating the tier model. -/
instance : HeightC Nat := ⟨fun _ => 0⟩

/-! Theorems settling the claims. -/

/-- C1: in `SpendCircuit::generate_constraints` the boolean `is_dummy` is the
in-circuit test `amount == 0`, its complement `is_not_dummy` is the selector of
every one of the eight semantic constraints, which are invoked in exactly the
order note-commitment-integrity, Merkle-path verification, rk-integrity,
diversified-address-integrity, diversified-basepoint-not-identity,
ak-not-identity, value-commitment-integrity, nullifier-integrity, and none of
them is emitted with an unconditional selector. -/
theorem spend_gating_order (G : GadgetRels) (dec : Decaf) (c : SpendCircuit)
    (tk : Element) (s : Fq) (p : Element)
    (htk : dec.decompress c.note.transmissionKeyBytes = some tk)
    (hak : dec.fqFromBytes c.ak.bytes = some s)
    (hakp : dec.decompress c.ak.bytes = some p) :
    ∃ r, SpendCircuit.generate_constraints G dec c = .ok r ∧
      r.gadgetCalls.map (fun g => (g.name, g.selector)) =
        [GadgetName.noteCommitmentIntegrity, .merklePathVerify, .rkIntegrity,
         .diversifiedAddressIntegrity, .diversifiedBasepointNotIdentity,
         .akNotIdentity, .valueCommitmentIntegrity, .nullifierIntegrity].map
          (fun n =>
            (n, !(decide (((c.note.value.amount % 2 ^ 64 : Nat) : Fq) = 0)))) := by
  simp only [SpendCircuit.generate_constraints, htk, hak, hakp]
  exact ⟨_, rfl, by simp⟩

/-- Witness for C1: the gating theorem evaluated on a concrete amount-1 spend
circuit under concrete external capabilities. -/
theorem spend_gating_order_witness :
    decW.decompress (spendW 1).note.transmissionKeyBytes = some ⟨0⟩ ∧
    ∃ r, SpendCircuit.generate_constraints GFalse decW (spendW 1) = .ok r ∧
      r.gadgetCalls.map (fun g => (g.name, g.selector)) =
        [GadgetName.noteCommitmentIntegrity, .merklePathVerify, .rkIntegrity,
         .diversifiedAddressIntegrity, .diversifiedBasepointNotIdentity,
         .akNotIdentity, .valueCommitmentIntegrity, .nullifierIntegrity].map
          (fun n =>
            (n, !(decide ((((spendW 1).note.value.amount % 2 ^ 64 : Nat) :
              Fq) = 0)))) :=
  ⟨rfl, spend_gating_order GFalse decW (spendW 1) ⟨0⟩ 0 ⟨0⟩ rfl rfl rfl⟩

/-- C2: the Spend circuit allocates its public inputs in the order anchor,
balance commitment, nullifier, rk, and the instance assignment this produces,
flattened, is exactly the public-input vector that `SpendProof::verify`
rebuilds (anchor field elements, then balance commitment, then nullifier,
then the decompressed rk element) and hands to the SNARK verification, whose
outcome alone decides success. -/
theorem spend_public_input_order (G : GadgetRels) (dec : Decaf)
    (c : SpendCircuit) (tk : Element) (s : Fq) (p : Element)
    (htk : dec.decompress c.note.transmissionKeyBytes = some tk)
    (hak : dec.fqFromBytes c.ak.bytes = some s)
    (hakp : dec.decompress c.ak.bytes = some p) :
    ∃ r, SpendCircuit.generate_constraints G dec c = .ok r ∧
      r.publicInputs.map Prod.fst =
        [SpendPubLabel.anchor, .balanceCommitment, .nullifier, .rk] ∧
      (r.publicInputs.map Prod.snd).flatten =
        SpendProof.verify_public_inputs dec c.anchor c.balance_commitment
          c.nullifier c.rk ∧
      ∀ (VK PVK Pf : Type) (g : G16 VK PVK Pf) (vk : VK) (proof : Pf)
        (pvk : PVK) (rkb : VerificationKeyBytes),
        g.process_vk vk = .ok pvk → dec.decompress rkb.bytes = some c.rk →
        (SpendProof.verify g dec proof vk c.anchor c.balance_commitment
            c.nullifier rkb = .ok (.ok ()) ↔
          g.verify_with_processed_vk pvk
            (SpendProof.verify_public_inputs dec c.anchor c.balance_commitment
              c.nullifier c.rk) proof = .ok true) := by
  simp only [SpendCircuit.generate_constraints, htk, hak, hakp]
  refine ⟨_, rfl, by simp, by simp [SpendProof.verify_public_inputs], ?_⟩
  intro VK PVK Pf g vk proof pvk rkb hpvk hrkb
  simp only [SpendProof.verify, hpvk, hrkb]
  rcases hv : g.verify_with_processed_vk pvk
      (SpendProof.verify_public_inputs dec c.anchor c.balance_commitment
        c.nullifier c.rk) proof with e | b
  · simp [hv]
  · cases b <;> simp [hv]

/-- Witness for C2: the public-input-order theorem evaluated on a concrete
spend circuit under concrete external capabilities. -/
theorem spend_public_input_order_witness :
    decW.decompress (spendW 1).note.transmissionKeyBytes = some ⟨0⟩ ∧
    ∃ r, SpendCircuit.generate_constraints GFalse decW (spendW 1) = .ok r ∧
      r.publicInputs.map Prod.fst =
        [SpendPubLabel.anchor, .balanceCommitment, .nullifier, .rk] ∧
      (r.publicInputs.map Prod.snd).flatten =
        SpendProof.verify_public_inputs decW (spendW 1).anchor
          (spendW 1).balance_commitment (spendW 1).nullifier (spendW 1).rk ∧
      ∀ (VK PVK Pf : Type) (g : G16 VK PVK Pf) (vk : VK) (proof : Pf)
        (pvk : PVK) (rkb : VerificationKeyBytes),
        g.process_vk vk = .ok pvk →
        decW.decompress rkb.bytes = some (spendW 1).rk →
        (SpendProof.verify g decW proof vk (spendW 1).anchor
            (spendW 1).balance_commitment (spendW 1).nullifier rkb =
              .ok (.ok ()) ↔
          g.verify_with_processed_vk pvk
            (SpendProof.verify_public_inputs decW (spendW 1).anchor
              (spendW 1).balance_commitment (spendW 1).nullifier
              (spendW 1).rk) proof = .ok true) :=
  ⟨rfl, spend_public_input_order GFalse decW (spendW 1) ⟨0⟩ 0 ⟨0⟩ rfl rfl rfl⟩

/-- C3: the Output circuit allocates its public inputs in the order note
commitment then balance commitment, and the instance assignment this
produces, flattened, is exactly the public-input vector that
`OutputProof::verify` rebuilds (note commitment field elements first, then
balance commitment) and hands to the SNARK verification, whose outcome alone
decides success. -/
theorem output_public_input_order (G : GadgetRels) (dec : Decaf)
    (c : OutputCircuit) :
    ∃ r, OutputCircuit.generate_constraints G dec c = .ok r ∧
      r.publicInputs.map Prod.fst =
        [OutputPubLabel.noteCommitment, .balanceCommitment] ∧
      (r.publicInputs.map Prod.snd).flatten =
        OutputProof.verify_public_inputs dec c.note_commitment
          c.balance_commitment ∧
      ∀ (VK PVK Pf : Type) (g : G16 VK PVK Pf) (vk : VK) (proof : Pf)
        (pvk : PVK),
        g.process_vk vk = .ok pvk →
        (OutputProof.verify g dec proof vk c.balance_commitment
            c.note_commitment = .ok () ↔
          g.verify_with_processed_vk pvk
            (OutputProof.verify_public_inputs dec c.note_commitment
              c.balance_commitment) proof = .ok true) := by
  refine ⟨_, rfl, by simp, by simp [OutputProof.verify_public_inputs], ?_⟩
  intro VK PVK Pf g vk proof pvk hpvk
  simp only [OutputProof.verify, hpvk]
  rcases hv : g.verify_with_processed_vk pvk
      (OutputProof.verify_public_inputs dec c.note_commitment
        c.balance_commitment) proof with e | b
  · simp [hv]
  · cases b <;> simp [hv]

/-- Witness for C3: the Output public-input-order theorem evaluated on a
concrete output circuit under concrete external capabilities. -/
theorem output_public_input_order_witness :
    ∃ r, OutputCircuit.generate_constraints GFalse decW outputW = .ok r ∧
      r.publicInputs.map Prod.fst =
        [OutputPubLabel.noteCommitment, .balanceCommitment] ∧
      (r.publicInputs.map Prod.snd).flatten =
        OutputProof.verify_public_inputs decW outputW.note_commitment
          outputW.balance_commitment ∧
      ∀ (VK PVK Pf : Type) (g : G16 VK PVK Pf) (vk : VK) (proof : Pf)
        (pvk : PVK),
        g.process_vk vk = .ok pvk →
        (OutputProof.verify g decW proof vk outputW.balance_commitment
            outputW.note_commitment = .ok () ↔
          g.verify_with_processed_vk pvk
            (OutputProof.verify_public_inputs decW outputW.note_commitment
              outputW.balance_commitment) proof = .ok true) :=
  output_public_input_order GFalse decW outputW

/-- C4: every Spend circuit whose note amount is 0 synthesizes a satisfied
constraint system whatever the Merkle witness, nullifier, balance commitment,
keys and remaining note fields are (every selector-gated constraint is
vacuously true); and there is a circuit with amount 1 and an inconsistent
witness whose constraint system is not satisfied. -/
theorem spend_dummy_vacuity :
    (∀ (G : GadgetRels) (dec : Decaf) (c : SpendCircuit) (tk : Element)
      (s : Fq) (p : Element),
      c.note.value.amount = 0 →
      dec.decompress c.note.transmissionKeyBytes = some tk →
      dec.fqFromBytes c.ak.bytes = some s →
      dec.decompress c.ak.bytes = some p →
      ∃ r, SpendCircuit.generate_constraints G dec c = .ok r ∧
        r.satisfied = true)
    ∧ spendSynthSatisfied
        (SpendCircuit.generate_constraints GFalse decW (spendW 1)) =
          some false
    ∧ (spendW 1).note.value.amount ≠ 0 := by
  refine ⟨?_, by decide, by decide⟩
  intro G dec c tk s p h0 htk hak hakp
  simp only [SpendCircuit.generate_constraints, htk, hak, hakp]
  refine ⟨_, rfl, ?_⟩
  simp [SpendSynthResult.satisfied, GadgetCall.holds, h0]

/-- Witness for C4: the vacuity theorem evaluated on a concrete dummy spend
(amount 0) with garbage witness data and inconsistent gadget relations. -/
theorem spend_dummy_vacuity_witness :
    (spendW 0).note.value.amount = 0 ∧
    ∃ r, SpendCircuit.generate_constraints GFalse decW (spendW 0) = .ok r ∧
      r.satisfied = true :=
  ⟨rfl, spend_dummy_vacuity.1 GFalse decW (spendW 0) ⟨0⟩ 0 ⟨0⟩ rfl rfl rfl rfl⟩

/-- C5: `OutputCircuit::generate_constraints` emits exactly three gadget
constraints — diversified-basepoint-not-identity, value-commitment-integrity,
note-commitment-integrity, in that order — and every one carries the constant
true selector, for every Output circuit instance. -/
theorem output_unconditional_gadgets (G : GadgetRels) (dec : Decaf)
    (c : OutputCircuit) :
    ∃ r, OutputCircuit.generate_constraints G dec c = .ok r ∧
      r.gadgetCalls.map (fun g => (g.name, g.selector)) =
        [(GadgetName.diversifiedBasepointNotIdentity, true),
         (GadgetName.valueCommitmentIntegrity, true),
         (GadgetName.noteCommitmentIntegrity, true)] := by
  refine ⟨_, rfl, ?_⟩
  simp [OutputCircuit.generate_constraints]

/-- Witness for C5: the unconditional-gadget theorem evaluated on a concrete
output circuit. -/
theorem output_unconditional_gadgets_witness :
    ∃ r, OutputCircuit.generate_constraints GFalse decW outputW = .ok r ∧
      r.gadgetCalls.map (fun g => (g.name, g.selector)) =
        [(GadgetName.diversifiedBasepointNotIdentity, true),
         (GadgetName.valueCommitmentIntegrity, true),
         (GadgetName.noteCommitmentIntegrity, true)] :=
  output_unconditional_gadgets GFalse decW outputW

/-- C6: `SpendProof::verify` and `OutputProof::verify` succeed exactly when
the underlying SNARK verification returns true on the reconstructed
public-input vector; a false pairing check becomes the error
"proof did not verify", and verifying-key-preprocessing errors and
verification-call errors propagate to the caller as the same error type. -/
theorem proof_verify_contract {VK PVK Pf : Type} (g : G16 VK PVK Pf)
    (dec : Decaf) (proof : Pf) (vk : VK) (anchor : Root)
    (bc : BalanceCommitment) (nf : Nullifier) (rkb : VerificationKeyBytes)
    (element_rk : Element) (ncm : NoteCommitment)
    (hrk : dec.decompress rkb.bytes = some element_rk) :
    (SpendProof.verify g dec proof vk anchor bc nf rkb = .ok (.ok ()) ↔
      ∃ pvk, g.process_vk vk = .ok pvk ∧
        g.verify_with_processed_vk pvk
          (SpendProof.verify_public_inputs dec anchor bc nf element_rk)
          proof = .ok true)
    ∧ (∀ pvk, g.process_vk vk = .ok pvk →
        g.verify_with_processed_vk pvk
          (SpendProof.verify_public_inputs dec anchor bc nf element_rk)
          proof = .ok false →
        SpendProof.verify g dec proof vk anchor bc nf rkb =
          .ok (.error "proof did not verify"))
    ∧ (∀ e, g.process_vk vk = .error e →
        SpendProof.verify g dec proof vk anchor bc nf rkb = .ok (.error e))
    ∧ (∀ pvk e, g.process_vk vk = .ok pvk →
        g.verify_with_processed_vk pvk
          (SpendProof.verify_public_inputs dec anchor bc nf element_rk)
          proof = .error e →
        SpendProof.verify g dec proof vk anchor bc nf rkb = .ok (.error e))
    ∧ (OutputProof.verify g dec proof vk bc ncm = .ok () ↔
      ∃ pvk, g.process_vk vk = .ok pvk ∧
        g.verify_with_processed_vk pvk
          (OutputProof.verify_public_inputs dec ncm bc) proof = .ok true)
    ∧ (∀ pvk, g.process_vk vk = .ok pvk →
        g.verify_with_processed_vk pvk
          (OutputProof.verify_public_inputs dec ncm bc) proof = .ok false →
        OutputProof.verify g dec proof vk bc ncm =
          .error "proof did not verify")
    ∧ (∀ e, g.process_vk vk = .error e →
        OutputProof.verify g dec proof vk bc ncm = .error e)
    ∧ (∀ pvk e, g.process_vk vk = .ok pvk →
        g.verify_with_processed_vk pvk
          (OutputProof.verify_public_inputs dec ncm bc) proof = .error e →
        OutputProof.verify g dec proof vk bc ncm = .error e) := by
  refine ⟨?_, ?_, ?_, ?_, ?_, ?_, ?_, ?_⟩
  · simp only [SpendProof.verify]
    rcases hp : g.process_vk vk with e | pvk
    · simp
    · simp only [hrk]
      rcases hv : g.verify_with_processed_vk pvk
          (SpendProof.verify_public_inputs dec anchor bc nf element_rk)
          proof with e' | b
      · simp [hv]
      · cases b <;> simp [hv]
  · intro pvk hp hv
    simp [SpendProof.verify, hp, hrk, hv]
  · intro e hp
    simp [SpendProof.verify, hp]
  · intro pvk e hp hv
    simp [SpendProof.verify, hp, hrk, hv]
  · simp only [OutputProof.verify]
    rcases hp : g.process_vk vk with e | pvk
    · simp
    · rcases hv : g.verify_with_processed_vk pvk
          (OutputProof.verify_public_inputs dec ncm bc) proof with e' | b
      · simp [hv]
      · cases b <;> simp [hv]
  · intro pvk hp hv
    simp [OutputProof.verify, hp, hv]
  · intro e hp
    simp [OutputProof.verify, hp]
  · intro pvk e hp hv
    simp [OutputProof.verify, hp, hv]

/-- Witness for C6: the verification contract evaluated over trivial key and
proof types with an always-true pairing check. -/
theorem proof_verify_contract_witness :
    decW.decompress (⟨[]⟩ : VerificationKeyBytes).bytes = some ⟨0⟩ ∧
    ((SpendProof.verify g16W decW () () ⟨0⟩ ⟨⟨0⟩⟩ ⟨0⟩ ⟨[]⟩ = .ok (.ok ()) ↔
      ∃ pvk, g16W.process_vk () = .ok pvk ∧
        g16W.verify_with_processed_vk pvk
          (SpendProof.verify_public_inputs decW ⟨0⟩ ⟨⟨0⟩⟩ ⟨0⟩ ⟨0⟩) () =
            .ok true)
    ∧ (∀ pvk, g16W.process_vk () = .ok pvk →
        g16W.verify_with_processed_vk pvk
          (SpendProof.verify_public_inputs decW ⟨0⟩ ⟨⟨0⟩⟩ ⟨0⟩ ⟨0⟩) () =
            .ok false →
        SpendProof.verify g16W decW () () ⟨0⟩ ⟨⟨0⟩⟩ ⟨0⟩ ⟨[]⟩ =
          .ok (.error "proof did not verify"))
    ∧ (∀ e, g16W.process_vk () = .error e →
        SpendProof.verify g16W decW () () ⟨0⟩ ⟨⟨0⟩⟩ ⟨0⟩ ⟨[]⟩ =
          .ok (.error e))
    ∧ (∀ pvk e, g16W.process_vk () = .ok pvk →
        g16W.verify_with_processed_vk pvk
          (SpendProof.verify_public_inputs decW ⟨0⟩ ⟨⟨0⟩⟩ ⟨0⟩ ⟨0⟩) () =
            .error e →
        SpendProof.verify g16W decW () () ⟨0⟩ ⟨⟨0⟩⟩ ⟨0⟩ ⟨[]⟩ =
          .ok (.error e))
    ∧ (OutputProof.verify g16W decW () () ⟨⟨0⟩⟩ ⟨0⟩ = .ok () ↔
      ∃ pvk, g16W.process_vk () = .ok pvk ∧
        g16W.verify_with_processed_vk pvk
          (OutputProof.verify_public_inputs decW ⟨0⟩ ⟨⟨0⟩⟩) () = .ok true)
    ∧ (∀ pvk, g16W.process_vk () = .ok pvk →
        g16W.verify_with_processed_vk pvk
          (OutputProof.verify_public_inputs decW ⟨0⟩ ⟨⟨0⟩⟩) () = .ok false →
        OutputProof.verify g16W decW () () ⟨⟨0⟩⟩ ⟨0⟩ =
          .error "proof did not verify")
    ∧ (∀ e, g16W.process_vk () = .error e →
        OutputProof.verify g16W decW () () ⟨⟨0⟩⟩ ⟨0⟩ = .error e)
    ∧ (∀ pvk e, g16W.process_vk () = .ok pvk →
        g16W.verify_with_processed_vk pvk
          (OutputProof.verify_public_inputs decW ⟨0⟩ ⟨⟨0⟩⟩) () = .error e →
        OutputProof.verify g16W decW () () ⟨⟨0⟩⟩ ⟨0⟩ = .error e)) :=
  ⟨rfl, proof_verify_contract g16W decW () () ⟨0⟩ ⟨⟨0⟩⟩ ⟨0⟩ ⟨[]⟩ ⟨0⟩ ⟨0⟩ rfl⟩

/-- C7: `SpendCircuit::generate_constraints` returns `Ok` whenever the
witness encodings decode (whatever the remaining, possibly dishonest, witness
values are), it returns `Err` only for the transmission-key decompression
failure and then with `SynthesisError::AssignmentMissing`, and
`OutputCircuit::generate_constraints` returns `Ok` for every witness. -/
theorem synthesis_error_conditions :
    (∀ (G : GadgetRels) (dec : Decaf) (c : SpendCircuit) (tk : Element)
        (s : Fq) (p : Element),
      dec.decompress c.note.transmissionKeyBytes = some tk →
      dec.fqFromBytes c.ak.bytes = some s →
      dec.decompress c.ak.bytes = some p →
      ∃ r, SpendCircuit.generate_constraints G dec c = .ok r)
    ∧ (∀ (G : GadgetRels) (dec : Decaf) (c : SpendCircuit)
        (e : SynthesisError),
      SpendCircuit.generate_constraints G dec c = .err e →
      e = .AssignmentMissing ∧
        dec.decompress c.note.transmissionKeyBytes = none)
    ∧ (∀ (G : GadgetRels) (dec : Decaf) (c : OutputCircuit),
      ∃ r, OutputCircuit.generate_constraints G dec c = .ok r) := by
  refine ⟨?_, ?_, ?_⟩
  · intro G dec c tk s p htk hak hakp
    simp only [SpendCircuit.generate_constraints, htk, hak, hakp]
    exact ⟨_, rfl⟩
  · intro G dec c e he
    simp only [SpendCircuit.generate_constraints] at he
    rcases htk : dec.decompress c.note.transmissionKeyBytes with _ | tk
    · simp only [htk] at he
      cases e
      exact ⟨rfl, rfl⟩
    · simp only [htk] at he
      rcases hfb : dec.fqFromBytes c.ak.bytes with _ | s <;>
        simp only [hfb] at he
      · exact SynthResult.noConfusion he
      · rcases hdp : dec.decompress c.ak.bytes with _ | p <;>
          simp only [hdp] at he <;> exact SynthResult.noConfusion he
  · intro G dec c
    exact ⟨_, rfl⟩

/-- Witness for C7: a dishonest but well-encoded concrete spend witness
synthesizes without error. -/
theorem synthesis_error_conditions_witness :
    decW.decompress (spendW 1).note.transmissionKeyBytes = some ⟨0⟩ ∧
    ∃ r, SpendCircuit.generate_constraints GFalse decW (spendW 1) = .ok r :=
  ⟨rfl, synthesis_error_conditions.1 GFalse decW (spendW 1) ⟨0⟩ 0 ⟨0⟩
    rfl rfl rfl⟩

/-- Counterexample for C8: two calls of `generate_test_parameters` feed the
SNARK setup fresh OS randomness, so under a setup whose output depends on its
randomness (as Groth16 setup does through its sampled toxic waste) the two
key pairs differ, for both circuits. -/
theorem test_parameters_not_deterministic_counterexample :
    SpendCircuit.generate_test_parameters extW decW 0 ≠
      SpendCircuit.generate_test_parameters extW decW 1 ∧
    OutputCircuit.generate_test_parameters extW decW 0 ≠
      OutputCircuit.generate_test_parameters extW decW 1 := by
  constructor <;> decide

/-- C8 as amended: `generate_test_parameters` for both circuits builds its
circuit instance from fixed witness values, independently of the randomness
source — the rng reaches only the final `circuit_specific_setup` call — so
two calls agree whenever the underlying SNARK setup ignores its randomness;
the produced key pairs are reproducible only up to that setup randomness. -/
theorem test_parameters_fixed_circuit {SpendKey Address Keys : Type}
    (ext : TestExt SpendKey Address Keys) (dec : Decaf) (r₁ r₂ : Nat)
    (hs : ∀ c r r', ext.spendSetup c r = ext.spendSetup c r')
    (ho : ∀ c r r', ext.outputSetup c r = ext.outputSetup c r') :
    SpendCircuit.generate_test_parameters ext dec r₁ =
      SpendCircuit.generate_test_parameters ext dec r₂ ∧
    OutputCircuit.generate_test_parameters ext dec r₁ =
      OutputCircuit.generate_test_parameters ext dec r₂ := by
  have hs' : ∀ c, ext.spendSetup c r₁ = ext.spendSetup c r₂ :=
    fun c => hs c r₁ r₂
  have ho' : ∀ c, ext.outputSetup c r₁ = ext.outputSetup c r₂ :=
    fun c => ho c r₁ r₂
  constructor <;>
    simp only [SpendCircuit.generate_test_parameters,
      OutputCircuit.generate_test_parameters, hs', ho']

/-- Witness for C8 as amended: under an rng-independent setup, two calls of
`generate_test_parameters` agree for both circuits. -/
theorem test_parameters_fixed_circuit_witness :
    SpendCircuit.generate_test_parameters extDet decW 0 =
      SpendCircuit.generate_test_parameters extDet decW 1 ∧
    OutputCircuit.generate_test_parameters extDet decW 0 =
      OutputCircuit.generate_test_parameters extDet decW 1 :=
  test_parameters_fixed_circuit extDet decW 0 1
    (fun _ _ _ => rfl) (fun _ _ _ => rfl)

/-- C9: when the `rk` bytes fail to decompress, `SpendProof::prove` panics,
and `SpendProof::verify` panics once key preprocessing has succeeded, instead
of returning an error; and `SpendCircuit::generate_constraints` panics when
the `ak` bytes fail the checked field decoding (`expect`) or the point
decompression (`unwrap`) instead of returning a `SynthesisError`. -/
theorem spend_panic_paths :
    (∀ (PK Pf : Type) (gp : G16SpendProve PK Pf) (dec : Decaf) (rng : Nat)
       (pk : PK) (ncp : TctProof) (note : Note) (vb sar : Fr)
       (ak : VerificationKeyBytes) (nk : NullifierKey) (anchor : Root)
       (bc : BalanceCommitment) (nf : Nullifier) (rkb : VerificationKeyBytes),
       dec.decompress rkb.bytes = none →
       SpendProof.prove gp dec rng pk ncp note vb sar ak nk anchor bc nf rkb =
         .panic "expect only valid element points")
    ∧ (∀ (VK PVK Pf : Type) (g : G16 VK PVK Pf) (dec : Decaf) (proof : Pf)
       (vk : VK) (anchor : Root) (bc : BalanceCommitment) (nf : Nullifier)
       (rkb : VerificationKeyBytes) (pvk : PVK),
       g.process_vk vk = .ok pvk → dec.decompress rkb.bytes = none →
       SpendProof.verify g dec proof vk anchor bc nf rkb =
         .panic "expect only valid element points")
    ∧ (∀ (G : GadgetRels) (dec : Decaf) (c : SpendCircuit) (tk : Element),
       dec.decompress c.note.transmissionKeyBytes = some tk →
       dec.fqFromBytes c.ak.bytes = none →
       SpendCircuit.generate_constraints G dec c =
         .panic "verification key is valid, so its byte encoding is a decaf377 s value")
    ∧ (∀ (G : GadgetRels) (dec : Decaf) (c : SpendCircuit) (tk : Element)
       (s : Fq),
       dec.decompress c.note.transmissionKeyBytes = some tk →
       dec.fqFromBytes c.ak.bytes = some s →
       dec.decompress c.ak.bytes = none →
       SpendCircuit.generate_constraints G dec c =
         .panic "called Option::unwrap on a None value") := by
  refine ⟨?_, ?_, ?_, ?_⟩
  · intro PK Pf gp dec rng pk ncp note vb sar ak nk anchor bc nf rkb h
    simp [SpendProof.prove, h]
  · intro VK PVK Pf g dec proof vk anchor bc nf rkb pvk hp h
    simp [SpendProof.verify, hp, h]
  · intro G dec c tk htk hfb
    simp [SpendCircuit.generate_constraints, htk, hfb]
  · intro G dec c tk s htk hfb hdp
    simp [SpendCircuit.generate_constraints, htk, hfb, hdp]

/-- Witness for C9: the four panic paths evaluated on concrete inputs whose
byte encodings fail at exactly the relevant decoding step. -/
theorem spend_panic_paths_witness :
    decAllNone.decompress ([] : Bytes) = none ∧
    SpendProof.prove gpW decAllNone 0 () ⟨0, 0, []⟩ (noteW 1) (Fr.ofNat 1)
        (Fr.ofNat 1) ⟨[]⟩ ⟨0⟩ ⟨0⟩ ⟨⟨0⟩⟩ ⟨0⟩ ⟨[]⟩ =
      .panic "expect only valid element points" ∧
    SpendProof.verify g16W decAllNone () () ⟨0⟩ ⟨⟨0⟩⟩ ⟨0⟩ ⟨[]⟩ =
      .panic "expect only valid element points" ∧
    SpendCircuit.generate_constraints GFalse decTkOnly (spendW 1) =
      .panic "verification key is valid, so its byte encoding is a decaf377 s value" ∧
    SpendCircuit.generate_constraints GFalse decAkBad (spendWak 1 [2]) =
      .panic "called Option::unwrap on a None value" :=
  ⟨rfl,
   spend_panic_paths.1 Unit Unit gpW decAllNone 0 () ⟨0, 0, []⟩ (noteW 1)
     (Fr.ofNat 1) (Fr.ofNat 1) ⟨[]⟩ ⟨0⟩ ⟨0⟩ ⟨⟨0⟩⟩ ⟨0⟩ ⟨[]⟩ rfl,
   spend_panic_paths.2.1 Unit Unit Unit g16W decAllNone () () ⟨0⟩ ⟨⟨0⟩⟩ ⟨0⟩
     ⟨[]⟩ () rfl rfl,
   spend_panic_paths.2.2.1 GFalse decTkOnly (spendW 1) ⟨0⟩ (by decide)
     (by decide),
   spend_panic_paths.2.2.2 GFalse decAkBad (spendWak 1 [2]) ⟨0⟩ 0 (by decide)
     (by decide) (by decide)⟩

/-- C10: the `Tier` wrapper forwards `hash` and `cached_hash` to its inner
8-deep nested complete tree and its height is the height of that nesting, so
wrapping a complete tree in a `Tier` never changes its hash or cached hash. -/
theorem tier_hash_forwarding (N L : Type → Type) (Item : Type)
    [GetHash (Nested N L Item)] [HeightC (Nested N L Item)]
    (t : Tier N L Item) :
    GetHash.hash t = GetHash.hash t.inner ∧
    GetHash.cached_hash t = GetHash.cached_hash t.inner ∧
    HeightC.heightOf t = HeightC.heightOf t.inner :=
  ⟨rfl, rfl, rfl⟩

/-- Witness for C10: the forwarding theorem evaluated on a concrete tier over
a toy item type. -/
theorem tier_hash_forwarding_witness :
    GetHash.hash (⟨5⟩ : Tier (fun a => a) (fun a => a) Nat) =
      GetHash.hash (⟨5⟩ : Tier (fun a => a) (fun a => a) Nat).inner ∧
    GetHash.cached_hash (⟨5⟩ : Tier (fun a => a) (fun a => a) Nat) =
      GetHash.cached_hash (⟨5⟩ : Tier (fun a => a) (fun a => a) Nat).inner ∧
    HeightC.heightOf (⟨5⟩ : Tier (fun a => a) (fun a => a) Nat) =
      HeightC.heightOf (⟨5⟩ : Tier (fun a => a) (fun a => a) Nat).inner :=
  tier_hash_forwarding (fun a => a) (fun a => a) Nat ⟨5⟩

end Penumbra
